import Mathlib

/-!
Verification development for the Shopify analytics AI service.

The Python source is shallowly embedded here:
* timestamps are integers counted in days (`datetime.utcnow()` at reference
  instant `now`; `timedelta(days = d)` subtracts `d`; `date.isoformat()`
  grouping keys become the integer day itself),
* Python floats on money/velocity become exact rationals `ℚ`,
* Python dicts used for grouping become association lists with
  insertion-ordered keys (`dictUpsert` appends unseen keys at the end and
  updates seen keys in place, exactly the visible behaviour of a Python
  dict in the source's grouping loops),
* `sorted(..., key = k, reverse = ...)` becomes `List.mergeSort` with the
  corresponding total preorder (both are stable sorts),
* fallible Python code (raising) returns `Except`.
-/

namespace ShopAI

/-- Confidence grades used throughout `answer_formatter.py` (the strings
`'low' / 'medium' / 'high'`). -/
inductive Confidence where
  | low
  | medium
  | high
deriving DecidableEq, Repr

/-- Numeric height of a confidence grade, used to state monotonicity. -/
def Confidence.toNat : Confidence → Nat
  | .low => 0
  | .medium => 1
  | .high => 2

/-- One order record, as produced by `MockShopifyData._generate_orders`
(`mock_data.py` lines 49-59).  `created_at` is the timestamp in days. -/
structure Order where
  order_id : Nat
  product_id : Nat
  product_title : String
  customer_id : Nat
  customer_email : String
  customer_name : String
  quantity : Nat
  total_price : ℚ
  created_at : Int
deriving DecidableEq, Repr

/-- One inventory record (`mock_data.py` `_generate_inventory`). -/
structure InventoryRow where
  product_id : Nat
  product_title : String
  sku : String
  quantity : Nat
deriving DecidableEq, Repr

/-- Python dict upsert as used by every grouping loop in `mock_data.py`:
`if k not in d: d[k] = dflt` followed by an in-place update of `d[k]`.
Unseen keys are appended at the end (Python dicts preserve insertion
order); seen keys are updated in place. -/
def dictUpsert {κ β : Type} [DecidableEq κ] (k : κ) (dflt : β) (upd : β → β) :
    List (κ × β) → List (κ × β)
  | [] => [(k, upd dflt)]
  | (k', v) :: rest =>
      if k = k' then (k', upd v) :: rest else (k', v) :: dictUpsert k dflt upd rest

/-- Whether `needle` is a contiguous leading segment of `hay`. -/
def charsLeading : List Char → List Char → Bool
  | [], _ => true
  | _ :: _, [] => false
  | a :: as, b :: bs => a == b && charsLeading as bs

/-- Whether `needle` occurs contiguously anywhere in `hay`
(Python's `needle in hay` on strings). -/
def charsContains (needle : List Char) : List Char → Bool
  | [] => needle.isEmpty
  | h :: t => charsLeading needle (h :: t) || charsContains needle t

/-- Python's `str.lower`, character-wise (all data here is ASCII). -/
def strLowerChars (s : String) : List Char :=
  s.data.map Char.toLower

/-- Entity filter predicate used by `get_top_products` / `get_sales_velocity`
(`mock_data.py` lines 108-112): keep an order if any entity string is a
case-insensitive substring of the product title
(`entity.lower() in order['product_title'].lower()`). -/
def entityMatch (entities : List String) (o : Order) : Bool :=
  entities.any fun e => charsContains (strLowerChars e) (strLowerChars o.product_title)

/-- One aggregated product-sales row (`ResultRow` shape of the
top-products view). -/
structure ProductRow where
  product_id : Nat
  product_title : String
  total_sold : Nat
  revenue : ℚ
deriving DecidableEq, Repr

/-- Grouping step of `MockShopifyData.get_top_products`
(`mock_data.py` lines 96-127): filter by window cutoff, filter by
entities when the entity list is non-empty, then accumulate quantity and
revenue per product id in a Python dict. -/
def topProductsGrouped (orders : List Order) (now : Int) (time_period : Option Nat)
    (entities : List String) : List (Nat × ProductRow) :=
  let days : Nat := time_period.getD 7
  let cutoff : Int := now - days
  let recent := orders.filter fun o => decide (cutoff ≤ o.created_at)
  let recent := if entities.isEmpty then recent else recent.filter (entityMatch entities)
  recent.foldl (fun acc o =>
    dictUpsert o.product_id
      { product_id := o.product_id, product_title := o.product_title
        total_sold := 0, revenue := 0 }
      (fun r => { r with total_sold := r.total_sold + o.quantity
                         revenue := r.revenue + o.total_price })
      acc) []

/-- Descending comparison on `total_sold` used by
`sorted(product_sales.values(), key = lambda x: x['total_sold'], reverse = True)`. -/
def bySoldDesc (a b : ProductRow) : Bool :=
  decide (b.total_sold ≤ a.total_sold)

/-- `MockShopifyData.get_top_products` (`mock_data.py` lines 96-130):
group, sort descending by units sold (stable), truncate to the top 5. -/
def get_top_products (orders : List Order) (now : Int) (time_period : Option Nat)
    (entities : List String) : List ProductRow :=
  (((topProductsGrouped orders now time_period entities).map Prod.snd).mergeSort
    bySoldDesc).take 5

/-- One sales-velocity row before the `avg_daily_sales` field is attached
(the dict built by the first loop of `get_sales_velocity`). -/
structure VelocityBase where
  product_id : Nat
  product_title : String
  total_sold : Nat
deriving DecidableEq, Repr

/-- One sales-velocity row (`ResultRow` shape of the velocity view). -/
structure VelocityRow where
  product_id : Nat
  product_title : String
  total_sold : Nat
  avg_daily_sales : ℚ
deriving DecidableEq, Repr

/-- Grouping loop of `MockShopifyData.get_sales_velocity`
(`mock_data.py` lines 150-159). -/
def velocityGrouped (recent : List Order) : List (Nat × VelocityBase) :=
  recent.foldl (fun acc o =>
    dictUpsert o.product_id
      { product_id := o.product_id, product_title := o.product_title, total_sold := 0 }
      (fun r => { r with total_sold := r.total_sold + o.quantity })
      acc) []

/-- `MockShopifyData.get_sales_velocity` (`mock_data.py` lines 132-165):
filter to the window (default 30 days), optionally filter by entities,
group per product, then attach `avg_daily_sales = total_sold / days`.
The division is Python `/` on the raw `days`: when `days = 0` and at
least one product was grouped, the first loop iteration raises
`ZeroDivisionError`, modelled as `Except.error ()`. -/
def get_sales_velocity (orders : List Order) (now : Int) (time_period : Option Nat)
    (entities : List String) : Except Unit (List VelocityRow) :=
  let days : Nat := time_period.getD 30
  let cutoff : Int := now - days
  let recent := orders.filter fun o => decide (cutoff ≤ o.created_at)
  let recent := if entities.isEmpty then recent else recent.filter (entityMatch entities)
  let grouped := velocityGrouped recent
  if days = 0 ∧ grouped ≠ [] then
    .error ()
  else
    .ok (grouped.map fun p =>
      { product_id := p.2.product_id, product_title := p.2.product_title
        total_sold := p.2.total_sold
        avg_daily_sales := (p.2.total_sold : ℚ) / (days : ℚ) })

/-- One stockout-risk row (`RiskEntry` without the derived
`days_remaining`, exactly the keys appended in `mock_data.py`
lines 185-190). -/
structure RiskRow where
  product_id : Nat
  product_title : String
  current_stock : Nat
  avg_daily_sales : ℚ
deriving DecidableEq, Repr

/-- Days until stockout of a risk row, the sort key
`x['current_stock'] / x['avg_daily_sales']` of `mock_data.py` line 192. -/
def RiskRow.days_remaining (r : RiskRow) : ℚ :=
  (r.current_stock : ℚ) / r.avg_daily_sales

/-- Ascending comparison on days remaining used by the final `sorted`. -/
def byDaysAsc (a b : RiskRow) : Bool :=
  decide (a.days_remaining ≤ b.days_remaining)

/-- `MockShopifyData.get_stockout_risks` (`mock_data.py` lines 167-192):
velocity over a fixed trailing 7-day window (the `time_period` argument
is never read), joined to inventory by product id, keeping entries with
positive velocity and at most 7 days remaining, sorted most urgent
first. -/
def get_stockout_risks (orders : List Order) (inventory : List InventoryRow)
    (now : Int) (_time_period : Option Nat) : Except Unit (List RiskRow) := do
  let velocity ← get_sales_velocity orders now (some 7) []
  let at_risk := velocity.filterMap fun vel =>
    match inventory.find? (fun i => i.product_id == vel.product_id) with
    | none => none
    | some inv =>
      if decide ((0 : ℚ) < vel.avg_daily_sales) then
        if decide ((inv.quantity : ℚ) / vel.avg_daily_sales ≤ 7) then
          some { product_id := vel.product_id, product_title := vel.product_title
                 current_stock := inv.quantity, avg_daily_sales := vel.avg_daily_sales }
        else none
      else none
  pure (at_risk.mergeSort byDaysAsc)

/-- One repeat/top-customer row (`ResultRow` shape of the customer views). -/
structure CustomerRow where
  customer_id : Nat
  customer_email : String
  customer_name : String
  order_count : Nat
  total_spent : ℚ
deriving DecidableEq, Repr

/-- One iteration of the grouping loop of
`MockShopifyData.get_repeat_customers` (`mock_data.py` lines 205-217):
ensure the customer's dict entry exists, then bump its order count and
spend. -/
def custUpsert (o : Order) (acc : List (Nat × CustomerRow)) : List (Nat × CustomerRow) :=
  dictUpsert o.customer_id
    { customer_id := o.customer_id, customer_email := o.customer_email
      customer_name := o.customer_name, order_count := 0, total_spent := 0 }
    (fun c => { c with order_count := c.order_count + 1
                       total_spent := c.total_spent + o.total_price })
    acc

/-- Grouping loop of `MockShopifyData.get_repeat_customers`
(`mock_data.py` lines 205-217). -/
def customersGrouped (recent : List Order) : List (Nat × CustomerRow) :=
  recent.foldl (fun acc o => custUpsert o acc) []

/-- Descending comparison on `order_count` used by the final `sorted`. -/
def byCountDesc (a b : CustomerRow) : Bool :=
  decide (b.order_count ≤ a.order_count)

/-- `MockShopifyData.get_repeat_customers` (`mock_data.py` lines 194-222):
filter to the window (default 90 days), group per customer, keep only
customers with more than one order, sort descending by order count. -/
def get_repeat_customers (orders : List Order) (now : Int)
    (time_period : Option Nat) : List CustomerRow :=
  let days : Nat := time_period.getD 90
  let cutoff : Int := now - days
  let recent := orders.filter fun o => decide (cutoff ≤ o.created_at)
  ((((customersGrouped recent).map Prod.snd).filter
      fun c => decide (1 < c.order_count)).mergeSort byCountDesc)

/-- One daily sales-summary row (`ResultRow` shape of the summary view);
`date` is the calendar day as an integer. -/
structure DailyRow where
  date : Int
  order_count : Nat
  total_revenue : ℚ
deriving DecidableEq, Repr

/-- Descending comparison on `date` used by the final `sorted`
(ISO date strings compare chronologically). -/
def byDateDesc (a b : DailyRow) : Bool :=
  decide (b.date ≤ a.date)

/-- One iteration of the grouping loop of
`MockShopifyData.get_sales_summary` (`mock_data.py` lines 235-245). -/
def summaryUpsert (o : Order) (acc : List (Int × DailyRow)) : List (Int × DailyRow) :=
  dictUpsert o.created_at
    { date := o.created_at, order_count := 0, total_revenue := 0 }
    (fun r => { r with order_count := r.order_count + 1
                       total_revenue := r.total_revenue + o.total_price })
    acc

/-- Grouping loop of `MockShopifyData.get_sales_summary`
(`mock_data.py` lines 235-245): one row per calendar date, counting
orders and summing revenue. -/
def salesSummaryGrouped (recent : List Order) : List (Int × DailyRow) :=
  recent.foldl (fun acc o => summaryUpsert o acc) []

/-- `MockShopifyData.get_sales_summary` (`mock_data.py` lines 224-247):
filter to the window (default 7 days), group by date, sort most recent
first. -/
def get_sales_summary (orders : List Order) (now : Int)
    (time_period : Option Nat) : List DailyRow :=
  let days : Nat := time_period.getD 7
  let cutoff : Int := now - days
  let recent := orders.filter fun o => decide (cutoff ≤ o.created_at)
  ((salesSummaryGrouped recent).map Prod.snd).mergeSort byDateDesc

/-- `AnswerFormatter._calculate_confidence` (`answer_formatter.py`
lines 325-342): empty data is low; otherwise high on at least 5 rows and
a window of at least 30 days, medium on at least 3 rows and at least
7 days, else low.  `time_period.getD 7` is
`time_period.get('value', 7) if time_period else 7`. -/
def calculate_confidence (raw_data : List ProductRow) (time_period : Option Nat) :
    Confidence :=
  if raw_data.isEmpty then .low
  else
    let data_count := raw_data.length
    let days := time_period.getD 7
    if 5 ≤ data_count ∧ 30 ≤ days then .high
    else if 3 ≤ data_count ∧ 7 ≤ days then .medium
    else .low

/-- Reorder branch of `AnswerFormatter._format_inventory_answer`
(`answer_formatter.py` lines 131-157), reduced to the numbers it
computes and interpolates: the daily rate `total_sold / days` (0 when
`days = 0`), the recommendation `int(daily_rate * 14 * 1.2)` (truncation
equals `floor` here since the rate is non-negative), and the confidence
(`'high'` when `days >= 30` else `'medium'`).  `days` is
`time_period.get('value', 30)`. -/
def format_inventory_reorder (total_sold : Nat) (time_period : Option Nat) :
    Int × Confidence :=
  let days : Nat := time_period.getD 30
  let daily_rate : ℚ := if 0 < days then (total_sold : ℚ) / (days : ℚ) else 0
  let recommended_qty : Int := (daily_rate * 14 * (6 / 5 : ℚ)).floor
  (recommended_qty, if 30 ≤ days then .high else .medium)

/-- Structured content of the general-sales answer branch of
`AnswerFormatter._format_sales_answer` (`answer_formatter.py`
lines 102-118), reduced to the numbers and grade it interpolates into
the answer string: `total_orders = len(raw_data)`,
`total_revenue = sum(item.get('total_revenue', 0))`, the average-order-value
segment (`none` models the empty string appended when
`total_orders = 0`), and the confidence. -/
structure SalesGeneralAnswer where
  total_orders : Nat
  total_revenue : ℚ
  avg_order_value : Option ℚ
  confidence : Confidence
deriving DecidableEq, Repr

/-- General-sales branch of `AnswerFormatter._format_sales_answer`
(`answer_formatter.py` lines 102-118). -/
def format_sales_general (raw_data : List DailyRow) : SalesGeneralAnswer :=
  let total_orders := raw_data.length
  let total_revenue := (raw_data.map DailyRow.total_revenue).sum
  { total_orders := total_orders
    total_revenue := total_revenue
    avg_order_value :=
      if 0 < total_orders then some (total_revenue / (total_orders : ℚ)) else none
    confidence := if 10 < total_orders then .high else .medium }

/-- Output contract of every category formatter: the templated answer
text together with its confidence grade (`{'answer': ..., 'confidence': ...}`). -/
structure FormatResult where
  answer : String
  confidence : Confidence
deriving DecidableEq, Repr

/-- Enhancement stage of `AnswerFormatter.format` (`answer_formatter.py`
lines 46-60): the category formatter's result is passed to
`llm_client.enhance_answer(result['answer'], question, data_summary)`;
on success only the answer text is replaced, and any exception (error,
timeout, or an absent collaborator) is swallowed, keeping the original
result. -/
def applyEnhancement (enhance : String → String → String → Except Unit String)
    (question data_summary : String) (result : FormatResult) : FormatResult :=
  match enhance result.answer question data_summary with
  | .ok enhanced => { result with answer := enhanced }
  | .error _ => result

/-- Structured intent record (`answer_formatter.py` / `workflow.py`
consume it as a dict with keys `category`, `metrics`, `time_period`,
`entities`; the time period is modelled by its `value` field). -/
structure Intent where
  category : String
  metrics : List String
  time_period : Option Nat
  entities : List String
deriving DecidableEq, Repr

/-- Result of `QueryValidator.validate`. -/
structure ValidationResult where
  passed : Bool
  reason : Option String
deriving DecidableEq, Repr

/-- Plan record built by `AgentWorkflow._plan_data_sources`. -/
structure Planning where
  data_sources : List String
  required_fields : List String
  aggregation_type : String
deriving DecidableEq, Repr

/-- `AgentWorkflow._get_required_fields` (`workflow.py` lines 135-143). -/
def get_required_fields (category : String) (_metrics : List String) : List String :=
  if category = "sales" then
    ["product_id", "product_title", "quantity", "total_price", "created_at"]
  else if category = "inventory" then
    ["product_id", "product_title", "quantity", "sku"]
  else if category = "customers" then
    ["customer_id", "customer_email", "customer_name", "total_price"]
  else if category = "general" then
    ["product_id", "quantity", "created_at"]
  else ["product_id", "created_at"]

/-- `AgentWorkflow._determine_aggregation` (`workflow.py` lines 145-154). -/
def determine_aggregation (metrics : List String) : String :=
  if metrics.contains "top_products" || metrics.contains "top_sellers" then "sum_group"
  else if metrics.contains "stockout_prediction" || metrics.contains "reorder_quantity" then
    "projection"
  else if metrics.contains "repeat_customers" then "count_group"
  else "simple"

/-- `AgentWorkflow._plan_data_sources` (`workflow.py` lines 106-133). -/
def plan_data_sources (intent : Intent) : Planning :=
  let data_sources :=
    if intent.category = "sales" then ["orders", "products"]
    else if intent.category = "inventory" then ["inventory_levels", "products", "orders"]
    else if intent.category = "customers" then ["customers", "orders"]
    else if intent.category = "general" then ["orders", "products"]
    else ["orders"]
  { data_sources := data_sources
    required_fields := get_required_fields intent.category intent.metrics
    aggregation_type := determine_aggregation intent.metrics }

/-- `AgentWorkflow._calculate_completeness` (`workflow.py` lines 156-163). -/
def calculate_completeness {ρ : Type} (raw_data : List ρ) : ℚ :=
  if raw_data.isEmpty then 0
  else if 0 < raw_data.length then 1 else 0

/-- Exceptions that can escape `AgentWorkflow.execute` (`workflow.py`
lines 35-104): collaborator failures at steps 1 and 4, the `ValueError`
raised on a rejected validation, and Python `TypeError`. -/
inductive WorkflowError where
  | classification
  | validationFailed (reason : String)
  | execution
  | typeError (msg : String)
deriving DecidableEq, Repr

/-- A Python coroutine object: calling an `async def` function returns
one immediately without running the body; only `await` runs it. -/
structure PyCoroutine (α : Type) where
  run : Unit → α

/-- Subscripting a coroutine object (`cor['key']`) raises
`TypeError: 'coroutine' object is not subscriptable` — coroutines do not
implement `__getitem__`. -/
def PyCoroutine.getitem {α β : Type} (_ : PyCoroutine α) (_key : String) :
    Except WorkflowError β :=
  .error (.typeError "coroutine object is not subscriptable")

/-- Response envelope built by `AgentWorkflow.execute` (`workflow.py`
lines 79-97), with its metadata block reduced to the fields the claims
speak about (row count and completeness). -/
structure QueryResponse where
  answer : String
  confidence : Confidence
  shopifyql : String
  intent : String
  used_data_sources : List String
  rows_returned : Nat
  completeness : ℚ
deriving DecidableEq, Repr

/-- `AgentWorkflow.execute` (`workflow.py` lines 35-104), parametrised by
its five collaborators.  `format_async` models `AnswerFormatter.format`,
which is declared `async def`; line 68 of the source invokes it WITHOUT
`await`, so the value bound to `answer_result` is the coroutine object
itself, and the subscripts `answer_result['answer']` /
`answer_result['confidence']` used to build the response raise
`TypeError`, which propagates out of `execute` (the `except` block
re-raises). -/
def workflowExecute {ρ : Type}
    (classify : String → Except Unit Intent)
    (generate : Intent → Planning → String)
    (validate : String → ValidationResult)
    (executeQuery : String → Intent → Except Unit (List ρ))
    (format_async : String → Intent → List ρ → String → PyCoroutine FormatResult)
    (question : String) : Except WorkflowError QueryResponse := do
  let intent_result ← (classify question).mapError fun _ => WorkflowError.classification
  let planning := plan_data_sources intent_result
  let shopifyql := generate intent_result planning
  let validation_result := validate shopifyql
  if !validation_result.passed then
    throw (.validationFailed (validation_result.reason.getD "Unknown error"))
  else do
    let raw_data ← (executeQuery shopifyql intent_result).mapError fun _ =>
      WorkflowError.execution
    let answer_result := format_async question intent_result raw_data shopifyql
    let answer : String ← answer_result.getitem "answer"
    let confidence : Confidence ← answer_result.getitem "confidence"
    pure { answer := answer
           confidence := confidence
           shopifyql := shopifyql
           intent := intent_result.category
           used_data_sources := planning.data_sources
           rows_returned := raw_data.length
           completeness := calculate_completeness raw_data }

/-- The product catalog of `MockShopifyData._generate_products`
(`mock_data.py` lines 17-30), with exact decimal prices. -/
structure Product where
  product_id : Nat
  product_title : String
  sku : String
  price : ℚ
deriving DecidableEq, Repr

/-- `MockShopifyData._generate_products`. -/
def mock_products : List Product :=
  [ { product_id := 1, product_title := "Wireless Bluetooth Headphones", sku := "WBH-001", price := 7999 / 100 }
  , { product_id := 2, product_title := "Organic Cotton T-Shirt", sku := "OCT-001", price := 2999 / 100 }
  , { product_id := 3, product_title := "Stainless Steel Water Bottle", sku := "SSWB-001", price := 2499 / 100 }
  , { product_id := 4, product_title := "Yoga Mat Pro", sku := "YMP-001", price := 4999 / 100 }
  , { product_id := 5, product_title := "Smart Watch Series 5", sku := "SWS5-001", price := 29999 / 100 }
  , { product_id := 6, product_title := "Leather Laptop Bag", sku := "LLB-001", price := 8999 / 100 }
  , { product_id := 7, product_title := "Portable Phone Charger", sku := "PPC-001", price := 3499 / 100 }
  , { product_id := 8, product_title := "Bamboo Sunglasses", sku := "BS-001", price := 5999 / 100 }
  , { product_id := 9, product_title := "Ceramic Coffee Mug Set", sku := "CCMS-001", price := 3999 / 100 }
  , { product_id := 10, product_title := "Fitness Resistance Bands", sku := "FRB-001", price := 1999 / 100 } ]

/-- Draw `random.randint(lo, hi)` as the `k`-th value of the global PRNG
draw stream `s` (each draw consumes one stream position). -/
def randintAt (s : Nat → Nat) (k lo hi : Nat) : Nat :=
  lo + s k % (hi - lo + 1)

/-- Inner loop of `MockShopifyData._generate_orders` (`mock_data.py`
lines 44-59): generate `n` orders for one day, drawing product choice,
customer id and quantity from the global PRNG stream (three draws per
order).  Returns the orders together with the next stream position. -/
def genOrderBatch (s : Nat → Nat) (now : Int) (day : Nat) :
    Nat → Nat → Nat → List Order × Nat
  | _startId, k, 0 => ([], k)
  | startId, k, n + 1 =>
    let product := mock_products.getD (s k % mock_products.length)
      { product_id := 0, product_title := "", sku := "", price := 0 }
    let customer_id := randintAt s (k + 1) 1 20
    let quantity := randintAt s (k + 2) 1 3
    let o : Order :=
      { order_id := startId + 1
        product_id := product.product_id
        product_title := product.product_title
        customer_id := customer_id
        customer_email := s!"customer{customer_id}@email.com"
        customer_name := s!"Customer {customer_id}"
        quantity := quantity
        total_price := product.price * (quantity : ℚ)
        created_at := now - (day : Int) }
    let rest := genOrderBatch s now day (startId + 1) (k + 3) n
    (o :: rest.1, rest.2)

/-- Outer loop of `MockShopifyData._generate_orders` (`mock_data.py`
lines 38-59): for each of the remaining days, draw the number of orders
(`randint(3, 8)` for the 30 most recent days, else `randint(1, 4)`) and
generate that day's batch. -/
def genOrdersAux (s : Nat → Nat) (now : Int) :
    Nat → Nat → Nat → Nat → List Order × Nat
  | 0, _day, _startId, k => ([], k)
  | remaining + 1, day, startId, k =>
    let num_orders := if day < 30 then randintAt s k 3 8 else randintAt s k 1 4
    let batch := genOrderBatch s now day startId (k + 1) num_orders
    let rest := genOrdersAux s now remaining (day + 1) (startId + num_orders) batch.2
    (batch.1 ++ rest.1, rest.2)

/-- `MockShopifyData._generate_orders` (`mock_data.py` lines 32-61):
90 days of synthetic orders drawn from the UNSEEDED global `random`
module, modelled as the draw stream `s` starting at position `k`.
Returns the history together with the stream position after
construction. -/
def generate_orders (s : Nat → Nat) (now : Int) (k : Nat) : List Order × Nat :=
  genOrdersAux s now 90 0 0 k

theorem calculate_confidence_eq (raw_data : List ProductRow) (tp : Option Nat) :
    calculate_confidence raw_data tp =
      if 5 ≤ raw_data.length ∧ 30 ≤ tp.getD 7 then .high
      else if 3 ≤ raw_data.length ∧ 7 ≤ tp.getD 7 then .medium
      else .low := by
  cases raw_data with
  | nil => simp [calculate_confidence]
  | cons a l => simp [calculate_confidence]

/-- C5: the confidence scorer returns HIGH iff `row_count ≥ 5` and
`window_days ≥ 30`, else MEDIUM iff `row_count ≥ 3` and
`window_days ≥ 7`, else LOW (`window_days` defaulting to 7 when the
window is absent); consequently it is monotone in the row count for a
fixed window and in the window length for a fixed row count. -/
theorem calculate_confidence_spec :
    ∀ (raw_data : List ProductRow) (time_period : Option Nat),
      (calculate_confidence raw_data time_period = .high ↔
        5 ≤ raw_data.length ∧ 30 ≤ time_period.getD 7) ∧
      (calculate_confidence raw_data time_period = .medium ↔
        ¬(5 ≤ raw_data.length ∧ 30 ≤ time_period.getD 7) ∧
          3 ≤ raw_data.length ∧ 7 ≤ time_period.getD 7) ∧
      (∀ more : List ProductRow, raw_data.length ≤ more.length →
        (calculate_confidence raw_data time_period).toNat ≤
          (calculate_confidence more time_period).toNat) ∧
      (∀ d d' : Nat, d ≤ d' →
        (calculate_confidence raw_data (some d)).toNat ≤
          (calculate_confidence raw_data (some d')).toNat) := by
  intro raw_data tp
  refine ⟨?_, ?_, ?_, ?_⟩
  · rw [calculate_confidence_eq]
    split_ifs with h1 h2 <;> simp_all
  · rw [calculate_confidence_eq]
    split_ifs with h1 h2 <;> simp_all
  · intro more hlen
    rw [calculate_confidence_eq, calculate_confidence_eq]
    split_ifs <;> simp [Confidence.toNat] <;> omega
  · intro d d' hd
    rw [calculate_confidence_eq, calculate_confidence_eq]
    simp only [Option.getD_some]
    split_ifs <;> simp [Confidence.toNat] <;> omega

/-- C5 witness: three rows over a 7-day window grade MEDIUM, and the
monotonicity clauses hold at concrete inputs. -/
theorem calculate_confidence_spec_witness :
    calculate_confidence
        [⟨1, "a", 2, 0⟩, ⟨2, "b", 2, 0⟩, ⟨3, "c", 2, 0⟩] (some 7) = .medium ∧
      (calculate_confidence [⟨1, "a", 2, 0⟩] (some 35)).toNat ≤
        (calculate_confidence
          [⟨1, "a", 2, 0⟩, ⟨2, "b", 2, 0⟩, ⟨3, "c", 2, 0⟩, ⟨4, "d", 2, 0⟩,
            ⟨5, "e", 2, 0⟩] (some 35)).toNat := by
  have h := calculate_confidence_spec
    [⟨1, "a", 2, 0⟩, ⟨2, "b", 2, 0⟩, ⟨3, "c", 2, 0⟩] (some 7)
  refine ⟨h.2.1.mpr (by decide), ?_⟩
  have h' := calculate_confidence_spec [⟨1, "a", 2, 0⟩] (some 35)
  exact h'.2.2.1
    [⟨1, "a", 2, 0⟩, ⟨2, "b", 2, 0⟩, ⟨3, "c", 2, 0⟩, ⟨4, "d", 2, 0⟩, ⟨5, "e", 2, 0⟩]
    (by decide)

theorem bySoldDesc_trans :
    ∀ a b c : ProductRow, bySoldDesc a b → bySoldDesc b c → bySoldDesc a c := by
  intro a b c
  simp only [bySoldDesc, decide_eq_true_eq]
  omega

theorem bySoldDesc_total : ∀ a b : ProductRow, bySoldDesc a b || bySoldDesc b a := by
  intro a b
  simp only [bySoldDesc, Bool.or_eq_true, decide_eq_true_eq]
  omega

/-- C2: for every record set, time window and entity filter,
`get_top_products` returns at most 5 entries, each with
`total_sold ≥ 0`, sorted non-increasing by `total_sold`; entries of
equal `total_sold` stay in stable first-appearance order (a tied pair
that is a sublist of the grouped rows, which are in first-appearance
order, is still a sublist of the sorted rows, of which the result is a
prefix); an empty record set, or an entity filter matching no order,
yields an empty result (the function is total: no fault). -/
theorem top_products_spec :
    ∀ (orders : List Order) (now : Int) (time_period : Option Nat)
      (entities : List String),
      (get_top_products orders now time_period entities).length ≤ 5 ∧
      (∀ r ∈ get_top_products orders now time_period entities, 0 ≤ r.total_sold) ∧
      (get_top_products orders now time_period entities).Pairwise
        (fun a b => b.total_sold ≤ a.total_sold) ∧
      (∀ a b : ProductRow, a.total_sold = b.total_sold →
        List.Sublist [a, b]
          ((topProductsGrouped orders now time_period entities).map Prod.snd) →
        List.Sublist [a, b]
          (((topProductsGrouped orders now time_period entities).map Prod.snd).mergeSort
            bySoldDesc)) ∧
      (orders = [] → get_top_products orders now time_period entities = []) ∧
      ((∀ o ∈ orders, entityMatch entities o = false) → entities ≠ [] →
        get_top_products orders now time_period entities = []) := by
  intro orders now tp entities
  refine ⟨?_, fun r _ => Nat.zero_le _, ?_, ?_, ?_, ?_⟩
  · exact (List.length_take_le 5 _).trans (by omega)
  · have hs := @List.sorted_mergeSort _ bySoldDesc bySoldDesc_trans bySoldDesc_total
      ((topProductsGrouped orders now tp entities).map Prod.snd)
    have hs' : (((topProductsGrouped orders now tp entities).map Prod.snd).mergeSort
        bySoldDesc).Pairwise (fun a b : ProductRow => b.total_sold ≤ a.total_sold) :=
      hs.imp fun h => by simpa [bySoldDesc] using h
    exact hs'.sublist (List.take_sublist 5 _)
  · intro a b hab hsub
    exact List.pair_sublist_mergeSort bySoldDesc_trans bySoldDesc_total
      (by simp [bySoldDesc, hab]) hsub
  · rintro rfl
    simp [get_top_products, topProductsGrouped]
  · intro hnone hne
    have hie : entities.isEmpty = false := by
      cases entities
      · exact absurd rfl hne
      · rfl
    have hfq : ((orders.filter fun o =>
        decide (now - ((tp.getD 7 : Nat) : Int) ≤ o.created_at)).filter
          (entityMatch entities)) = [] :=
      List.filter_eq_nil_iff.mpr fun o ho => by
        simp [hnone o (List.mem_filter.mp ho).1]
    simp only [get_top_products, topProductsGrouped, hie, Bool.false_eq_true,
      if_false, hfq, List.foldl_nil, List.map_nil, List.mergeSort_nil,
      List.take_nil]

/-- C2 witness: the empty record set and a non-matching entity filter
both give the empty result at concrete inputs. -/
theorem top_products_spec_witness :
    get_top_products [] 0 none [] = [] ∧
      get_top_products
        [{ order_id := 1, product_id := 4, product_title := "Yoga Mat Pro"
           customer_id := 1, customer_email := "e", customer_name := "n"
           quantity := 1, total_price := 10, created_at := 0 }] 0 none ["zzz"] = [] := by
  refine ⟨(top_products_spec [] 0 none []).2.2.2.2.1 rfl, ?_⟩
  exact (top_products_spec
    [{ order_id := 1, product_id := 4, product_title := "Yoga Mat Pro"
       customer_id := 1, customer_email := "e", customer_name := "n"
       quantity := 1, total_price := 10, created_at := 0 }] 0 none
    ["zzz"]).2.2.2.2.2 (by decide) (by decide)

theorem byDaysAsc_trans :
    ∀ a b c : RiskRow, byDaysAsc a b → byDaysAsc b c → byDaysAsc a c := by
  intro a b c
  simp only [byDaysAsc, decide_eq_true_eq]
  exact le_trans

theorem byDaysAsc_total : ∀ a b : RiskRow, byDaysAsc a b || byDaysAsc b a := by
  intro a b
  simp only [byDaysAsc, Bool.or_eq_true, decide_eq_true_eq]
  exact le_total _ _

theorem get_sales_velocity_ok (orders : List Order) (now : Int) (tp : Option Nat)
    (entities : List String) (hd : tp.getD 30 ≠ 0) :
    ∃ l, get_sales_velocity orders now tp entities = .ok l := by
  simp only [get_sales_velocity]
  rw [if_neg (by simp [hd])]
  exact ⟨_, rfl⟩

/-- C3: `get_stockout_risks` ignores the caller's window (its result is
definitionally identical for any two requested windows, velocity being
computed over a fixed trailing 7-day window); it never faults, and every
returned entry has positive velocity and
`days_remaining = current_stock / avg_daily_sales ≤ 7`, the sequence
being sorted ascending by `days_remaining` (most urgent first). -/
theorem stockout_risks_spec :
    ∀ (orders : List Order) (inventory : List InventoryRow) (now : Int)
      (tp tp' : Option Nat),
      get_stockout_risks orders inventory now tp =
        get_stockout_risks orders inventory now tp' ∧
      ∃ l, get_stockout_risks orders inventory now tp = .ok l ∧
        (∀ e ∈ l, 0 < e.avg_daily_sales ∧ e.days_remaining ≤ 7) ∧
        l.Pairwise (fun a b => a.days_remaining ≤ b.days_remaining) := by
  intro orders inventory now tp tp'
  refine ⟨rfl, ?_⟩
  obtain ⟨vl, hvl⟩ := get_sales_velocity_ok orders now (some 7) [] (by simp)
  unfold get_stockout_risks
  rw [hvl]
  show ∃ l, Except.ok _ = Except.ok l ∧ _
  refine ⟨_, rfl, ?_, ?_⟩
  · intro e he
    rw [List.mem_mergeSort] at he
    obtain ⟨vel, hvmem, hsome⟩ := List.mem_filterMap.mp he
    rcases hfind : inventory.find? (fun i => i.product_id == vel.product_id) with _ | inv
    · rw [hfind] at hsome
      simp at hsome
    · rw [hfind] at hsome
      by_cases h1 : (0 : ℚ) < vel.avg_daily_sales
      · by_cases h2 : (inv.quantity : ℚ) / vel.avg_daily_sales ≤ 7
        · simp only [decide_eq_true h1, decide_eq_true h2, if_true,
            Option.some.injEq] at hsome
          rw [← hsome]
          exact ⟨h1, h2⟩
        · simp [h1, h2] at hsome
      · simp [h1] at hsome
  · have hs := @List.sorted_mergeSort _ byDaysAsc byDaysAsc_trans byDaysAsc_total
      (vl.filterMap fun vel =>
        match inventory.find? (fun i => i.product_id == vel.product_id) with
        | none => none
        | some inv =>
          if decide ((0 : ℚ) < vel.avg_daily_sales) then
            if decide ((inv.quantity : ℚ) / vel.avg_daily_sales ≤ 7) then
              some { product_id := vel.product_id, product_title := vel.product_title
                     current_stock := inv.quantity
                     avg_daily_sales := vel.avg_daily_sales }
            else none
          else none)
    exact hs.imp fun h => by simpa [byDaysAsc, RiskRow.days_remaining] using h

/-- C3 witness: at a concrete record set and inventory, the result is the
same for two different requested windows, and the inner clauses hold on
the concretely computed risk list. -/
theorem stockout_risks_spec_witness :
    get_stockout_risks
        [{ order_id := 1, product_id := 1, product_title := "Wireless Bluetooth Headphones"
           customer_id := 1, customer_email := "e", customer_name := "n"
           quantity := 2, total_price := 10, created_at := 0 }]
        [{ product_id := 1, product_title := "Wireless Bluetooth Headphones"
           sku := "WBH-001", quantity := 2 }] 0 none =
      get_stockout_risks
        [{ order_id := 1, product_id := 1, product_title := "Wireless Bluetooth Headphones"
           customer_id := 1, customer_email := "e", customer_name := "n"
           quantity := 2, total_price := 10, created_at := 0 }]
        [{ product_id := 1, product_title := "Wireless Bluetooth Headphones"
           sku := "WBH-001", quantity := 2 }] 0 (some 3) :=
  (stockout_risks_spec
    [{ order_id := 1, product_id := 1, product_title := "Wireless Bluetooth Headphones"
       customer_id := 1, customer_email := "e", customer_name := "n"
       quantity := 2, total_price := 10, created_at := 0 }]
    [{ product_id := 1, product_title := "Wireless Bluetooth Headphones"
       sku := "WBH-001", quantity := 2 }] 0 none (some 3)).1

theorem rat_floor_eq_intFloor (q : ℚ) : q.floor = ⌊q⌋ := by
  rw [Rat.floor_def', Rat.floor_def]

/-- C6: the reorder estimator computes
`daily_rate = total_sold / window_days` (0 when the window length is 0)
and recommends `floor(daily_rate * 14 * 1.2)` units; `total_sold = 60`
over `window_days = 30` yields exactly 33, with HIGH confidence when
`window_days ≥ 30` and MEDIUM otherwise. -/
theorem reorder_estimator_spec :
    (∀ (total_sold : Nat) (time_period : Option Nat),
      (format_inventory_reorder total_sold time_period).1 =
        ((if 0 < time_period.getD 30 then
            (total_sold : ℚ) / (time_period.getD 30 : ℚ) else 0) * 14 * (6 / 5)).floor ∧
      (format_inventory_reorder total_sold time_period).2 =
        (if 30 ≤ time_period.getD 30 then Confidence.high else .medium)) ∧
    format_inventory_reorder 60 (some 30) = (33, .high) := by
  refine ⟨fun total_sold tp => ⟨rfl, rfl⟩, ?_⟩
  unfold format_inventory_reorder
  simp only [Option.getD_some]
  norm_num
  rw [rat_floor_eq_intFloor]
  norm_num

/-- C9: if the optional answer-enhancement collaborator fails for any
reason, the enhancement stage returns the category formatter's result
unchanged (original templated answer, same confidence), and the
confidence is unchanged whatever the enhancement outcome; the failure
is never surfaced. -/
theorem enhancement_failure_swallowed :
    ∀ (enhance : String → String → String → Except Unit String)
      (question data_summary : String) (result : FormatResult),
      ((∃ e, enhance result.answer question data_summary = .error e) →
        applyEnhancement enhance question data_summary result = result) ∧
      (applyEnhancement enhance question data_summary result).confidence =
        result.confidence := by
  intro enhance q ds r
  constructor
  · rintro ⟨e, he⟩
    simp [applyEnhancement, he]
  · unfold applyEnhancement
    cases enhance r.answer q ds <;> rfl

/-- C9 witness: a concrete failing enhancer leaves a concrete formatter
result untouched. -/
theorem enhancement_failure_swallowed_witness :
    applyEnhancement (fun _ _ _ => .error ()) "q" "summary" ⟨"draft", .medium⟩ =
      ⟨"draft", .medium⟩ :=
  (enhancement_failure_swallowed (fun _ _ _ => .error ()) "q" "summary"
    ⟨"draft", .medium⟩).1 ⟨(), rfl⟩

/-- C4: the claim asks that `get_sales_velocity` with a zero-length
window report `avg_daily_sales = 0` and never fault, for EVERY record
set.  The code has no zero guard: with `window.value = 0` the cutoff is
the call instant, so any order timestamped at (or after) that instant is
kept, and the velocity loop evaluates `total_sold / 0`, raising
`ZeroDivisionError`.  This theorem evaluates the code at such a record
set: a single order created exactly at the reference instant. -/
theorem sales_velocity_zero_window_raises :
    get_sales_velocity
      [{ order_id := 1, product_id := 1, product_title := "Wireless Bluetooth Headphones"
         customer_id := 1, customer_email := "customer1@email.com"
         customer_name := "Customer 1", quantity := 1, total_price := 7999 / 100
         created_at := 0 }] 0 (some 0) [] = .error () := rfl

set_option maxRecDepth 100000 in
/-- C10: the synthetic order history is drawn from the UNSEEDED global
`random` module, so it is a function of the PRNG draw stream, not of the
reference time alone: two instances constructed at the same reference
time but with different global PRNG states (different processes, or
back-to-back constructions in one process) hold different 90-day order
histories — here they do not even have the same number of orders,
refuting the claimed determinism (and the class docstring
"deterministic mock data"). -/
theorem generate_orders_not_deterministic :
    (generate_orders (fun _ => 0) 0 0).1.length ≠
      (generate_orders (fun _ => 1) 0 0).1.length := by
  decide

theorem summaryUpsert_rev_sum (o : Order) :
    ∀ acc : List (Int × DailyRow),
      ((summaryUpsert o acc).map fun p => p.2.total_revenue).sum =
        ((acc.map fun p => p.2.total_revenue).sum) + o.total_price := by
  intro acc
  induction acc with
  | nil => simp [summaryUpsert, dictUpsert]
  | cons hd tl ih =>
    obtain ⟨k, v⟩ := hd
    simp only [summaryUpsert, dictUpsert] at ih ⊢
    by_cases h : o.created_at = k
    · rw [if_pos h]
      simp only [List.map_cons, List.sum_cons]
      ring
    · rw [if_neg h]
      simp only [List.map_cons, List.sum_cons, ih]
      ring

theorem salesSummaryGrouped_rev_sum (recent : List Order) :
    ((salesSummaryGrouped recent).map fun p => p.2.total_revenue).sum =
      (recent.map Order.total_price).sum := by
  suffices h : ∀ (l : List Order) (acc : List (Int × DailyRow)),
      (((l.foldl (fun acc o => summaryUpsert o acc) acc).map
        fun p => p.2.total_revenue).sum) =
        ((acc.map fun p => p.2.total_revenue).sum) + (l.map Order.total_price).sum by
    simpa [salesSummaryGrouped] using h recent []
  intro l
  induction l with
  | nil => simp
  | cons o t ih =>
    intro acc
    simp only [List.foldl_cons, List.map_cons, List.sum_cons]
    rw [ih, summaryUpsert_rev_sum]
    ring

theorem get_sales_summary_rev_sum (orders : List Order) (now : Int)
    (tp : Option Nat) :
    ((get_sales_summary orders now tp).map DailyRow.total_revenue).sum =
      ((orders.filter fun o =>
          decide (now - ((tp.getD 7 : Nat) : Int) ≤ o.created_at)).map
        Order.total_price).sum := by
  unfold get_sales_summary
  rw [((List.mergeSort_perm _ byDateDesc).map DailyRow.total_revenue).sum_eq]
  rw [List.map_map]
  exact salesSummaryGrouped_rev_sum _

/-- C7 (amended): for category sales without the `top_products` metric,
the formatter reports the NUMBER OF DAILY SUMMARY ROWS (days with at
least one order) as the order count — not the aggregate order count —
together with the true aggregate revenue over the window; the
average-order-value segment equals `total_revenue / row_count` and is
present iff the row set is non-empty (the `total_orders = 0` guard
yields the empty string, never a fault), and the confidence is HIGH iff
the row count exceeds 10, else MEDIUM. -/
theorem sales_general_spec :
    ∀ (orders : List Order) (now : Int) (tp : Option Nat),
      (format_sales_general (get_sales_summary orders now tp)).total_orders =
        (get_sales_summary orders now tp).length ∧
      (format_sales_general (get_sales_summary orders now tp)).total_revenue =
        ((orders.filter fun o =>
            decide (now - ((tp.getD 7 : Nat) : Int) ≤ o.created_at)).map
          Order.total_price).sum ∧
      (get_sales_summary orders now tp ≠ [] →
        (format_sales_general (get_sales_summary orders now tp)).avg_order_value =
          some ((format_sales_general (get_sales_summary orders now tp)).total_revenue /
            ((get_sales_summary orders now tp).length : ℚ))) ∧
      ((format_sales_general (get_sales_summary orders now tp)).avg_order_value = none ↔
        get_sales_summary orders now tp = []) ∧
      (format_sales_general (get_sales_summary orders now tp)).confidence =
        (if 10 < (get_sales_summary orders now tp).length then Confidence.high
          else .medium) := by
  intro orders now tp
  refine ⟨rfl, get_sales_summary_rev_sum orders now tp, ?_, ?_, rfl⟩
  · intro hne
    have hpos : 0 < (get_sales_summary orders now tp).length :=
      List.length_pos.mpr hne
    simp [format_sales_general, hpos]
  · constructor
    · intro hnone
      by_contra hne
      have hpos : 0 < (get_sales_summary orders now tp).length :=
        List.length_pos.mpr hne
      simp [format_sales_general, hpos] at hnone
    · intro hnil
      simp [format_sales_general, hnil]

unseal List.merge List.mergeSort in
/-- C7 witness: the amended claim's conditional clauses discharged at a
concrete non-empty record set. -/
theorem sales_general_spec_witness :
    (format_sales_general (get_sales_summary
        [{ order_id := 1, product_id := 1, product_title := "p"
           customer_id := 1, customer_email := "e", customer_name := "n"
           quantity := 1, total_price := 10, created_at := 0 }] 0 (some 7))).avg_order_value =
      some ((format_sales_general (get_sales_summary
        [{ order_id := 1, product_id := 1, product_title := "p"
           customer_id := 1, customer_email := "e", customer_name := "n"
           quantity := 1, total_price := 10, created_at := 0 }] 0 (some 7))).total_revenue /
        (((get_sales_summary
        [{ order_id := 1, product_id := 1, product_title := "p"
           customer_id := 1, customer_email := "e", customer_name := "n"
           quantity := 1, total_price := 10, created_at := 0 }] 0 (some 7)).length : ℚ))) :=
  (sales_general_spec
    [{ order_id := 1, product_id := 1, product_title := "p"
       customer_id := 1, customer_email := "e", customer_name := "n"
       quantity := 1, total_price := 10, created_at := 0 }] 0 (some 7)).2.2.1 (by decide)

unseal List.merge List.mergeSort in
/-- C7 counterexample: 12 in-window orders spread over 2 calendar days.
The aggregate order count over the window is 12 (> 10), but the
formatter reports `total_orders = 2` (the number of daily rows) and
grades MEDIUM, where the claim as stated requires the aggregate count 12
to be reported and HIGH confidence (12 > 10). -/
theorem sales_general_counterexample :
    (((get_sales_summary
        (((List.range 6).map fun i =>
            { order_id := i + 1, product_id := 1, product_title := "p"
              customer_id := 1, customer_email := "e", customer_name := "n"
              quantity := 1, total_price := 10, created_at := 0 }) ++
          ((List.range 6).map fun i =>
            { order_id := i + 7, product_id := 1, product_title := "p"
              customer_id := 1, customer_email := "e", customer_name := "n"
              quantity := 1, total_price := 10, created_at := -1 })) 0 (some 7)).map
      DailyRow.order_count).sum = 12 ∧ 10 < 12) ∧
    (format_sales_general (get_sales_summary
        (((List.range 6).map fun i =>
            { order_id := i + 1, product_id := 1, product_title := "p"
              customer_id := 1, customer_email := "e", customer_name := "n"
              quantity := 1, total_price := 10, created_at := 0 }) ++
          ((List.range 6).map fun i =>
            { order_id := i + 7, product_id := 1, product_title := "p"
              customer_id := 1, customer_email := "e", customer_name := "n"
              quantity := 1, total_price := 10, created_at := -1 })) 0 (some 7))).total_orders
      = 2 ∧
    (format_sales_general (get_sales_summary
        (((List.range 6).map fun i =>
            { order_id := i + 1, product_id := 1, product_title := "p"
              customer_id := 1, customer_email := "e", customer_name := "n"
              quantity := 1, total_price := 10, created_at := 0 }) ++
          ((List.range 6).map fun i =>
            { order_id := i + 7, product_id := 1, product_title := "p"
              customer_id := 1, customer_email := "e", customer_name := "n"
              quantity := 1, total_price := 10, created_at := -1 })) 0 (some 7))).confidence
      = .medium := by
  decide

/-- Total order count accumulated for customer key `k` in a grouping
accumulator (summed over every entry carrying that key). -/
def keyOrderCount (k : Nat) (acc : List (Nat × CustomerRow)) : Nat :=
  (acc.map fun p => if p.1 = k then p.2.order_count else 0).sum

theorem custUpsert_keyOrderCount (o : Order) (k : Nat) :
    ∀ acc, keyOrderCount k (custUpsert o acc) =
      keyOrderCount k acc + (if o.customer_id = k then 1 else 0) := by
  intro acc
  induction acc with
  | nil =>
    by_cases h : o.customer_id = k <;>
      simp [custUpsert, dictUpsert, keyOrderCount, h]
  | cons hd tl ih =>
    obtain ⟨k', v⟩ := hd
    simp only [custUpsert, dictUpsert, keyOrderCount] at ih ⊢
    by_cases h : o.customer_id = k'
    · rw [if_pos h]
      simp only [List.map_cons, List.sum_cons]
      split_ifs <;> omega
    · rw [if_neg h]
      simp only [List.map_cons, List.sum_cons]
      rw [ih]
      split_ifs <;> omega

theorem customersGrouped_keyOrderCount (recent : List Order) (k : Nat) :
    keyOrderCount k (customersGrouped recent) =
      recent.countP fun o => decide (o.customer_id = k) := by
  suffices h : ∀ (l : List Order) acc,
      keyOrderCount k (l.foldl (fun acc o => custUpsert o acc) acc) =
        keyOrderCount k acc + l.countP (fun o => decide (o.customer_id = k)) by
    simpa [customersGrouped, keyOrderCount] using h recent []
  intro l
  induction l with
  | nil => simp
  | cons o t ih =>
    intro acc
    simp only [List.foldl_cons, List.countP_cons, decide_eq_true_eq]
    rw [ih, custUpsert_keyOrderCount]
    split_ifs <;> omega

theorem custUpsert_customer_id (o : Order) :
    ∀ acc, (∀ q ∈ acc, q.2.customer_id = q.1) →
      ∀ p ∈ custUpsert o acc, p.2.customer_id = p.1 := by
  intro acc
  induction acc with
  | nil =>
    intro _ p hp
    rw [List.mem_singleton.mp hp]
  | cons hd tl ih =>
    intro hacc p hp
    obtain ⟨k', v⟩ := hd
    simp only [custUpsert, dictUpsert] at hp
    by_cases h : o.customer_id = k'
    · rw [if_pos h] at hp
      rcases List.mem_cons.mp hp with h1 | h1
      · rw [h1]
        exact hacc (k', v) (List.mem_cons_self _ _)
      · exact hacc p (List.mem_cons_of_mem _ h1)
    · rw [if_neg h] at hp
      rcases List.mem_cons.mp hp with h1 | h1
      · rw [h1]
        exact hacc (k', v) (List.mem_cons_self _ _)
      · exact ih (fun q hq => hacc q (List.mem_cons_of_mem _ hq)) p h1

theorem customersGrouped_customer_id (recent : List Order) :
    ∀ p ∈ customersGrouped recent, p.2.customer_id = p.1 := by
  suffices h : ∀ (l : List Order) acc, (∀ q ∈ acc, q.2.customer_id = q.1) →
      ∀ p ∈ l.foldl (fun acc o => custUpsert o acc) acc, p.2.customer_id = p.1 by
    exact h recent [] (by simp)
  intro l
  induction l with
  | nil =>
    intro acc hacc
    simpa using hacc
  | cons o t ih =>
    intro acc hacc
    simp only [List.foldl_cons]
    exact ih _ (custUpsert_customer_id o acc hacc)

theorem entry_count_le_keyOrderCount (acc : List (Nat × CustomerRow))
    (p : Nat × CustomerRow) (hp : p ∈ acc) :
    p.2.order_count ≤ keyOrderCount p.1 acc := by
  unfold keyOrderCount
  have hm : p.2.order_count ∈ acc.map fun q => if q.1 = p.1 then q.2.order_count else 0 :=
    List.mem_map.mpr ⟨p, hp, by simp⟩
  exact List.single_le_sum (fun x _ => Nat.zero_le x) _ hm

theorem countP_erase_mem {α : Type} [DecidableEq α] (p : α → Bool) (a : α)
    (hpa : p a = true) :
    ∀ l : List α, a ∈ l → (l.erase a).countP p + 1 = l.countP p := by
  intro l
  induction l with
  | nil => simp
  | cons b t ih =>
    intro hmem
    rw [List.erase_cons]
    by_cases hb : b = a
    · subst hb
      rw [if_pos (by simp)]
      rw [List.countP_cons_of_pos _ _ hpa]
    · rw [if_neg (by simpa using hb)]
      have hat : a ∈ t := by
        rcases List.mem_cons.mp hmem with h | h
        · exact absurd h.symm hb
        · exact h
      rw [List.countP_cons, List.countP_cons, ← ih hat]
      omega

theorem byCountDesc_trans :
    ∀ a b c : CustomerRow, byCountDesc a b → byCountDesc b c → byCountDesc a c := by
  intro a b c
  simp only [byCountDesc, decide_eq_true_eq]
  omega

theorem byCountDesc_total : ∀ a b : CustomerRow, byCountDesc a b || byCountDesc b a := by
  intro a b
  simp only [byCountDesc, Bool.or_eq_true, decide_eq_true_eq]
  omega

/-- C8: for every record set and time window, `get_repeat_customers`
returns only customers with `order_count > 1`, sorted descending by
`order_count`; and for any customer with exactly 2 orders inside the
window, removing either one of those two orders from the record set
removes that customer from the result. -/
theorem repeat_customers_spec :
    ∀ (orders : List Order) (now : Int) (time_period : Option Nat),
      (∀ e ∈ get_repeat_customers orders now time_period, 1 < e.order_count) ∧
      (get_repeat_customers orders now time_period).Pairwise
        (fun a b => b.order_count ≤ a.order_count) ∧
      (∀ (c : Nat) (o : Order), o ∈ orders → o.customer_id = c →
        decide (now - ((time_period.getD 90 : Nat) : Int) ≤ o.created_at) = true →
        ((orders.filter fun o' =>
            decide (now - ((time_period.getD 90 : Nat) : Int) ≤ o'.created_at)).countP
          fun o' => decide (o'.customer_id = c)) = 2 →
        ∀ e ∈ get_repeat_customers (orders.erase o) now time_period,
          e.customer_id ≠ c) := by
  intro orders now tp
  refine ⟨?_, ?_, ?_⟩
  · intro e he
    simp only [get_repeat_customers, List.mem_mergeSort, List.mem_filter,
      decide_eq_true_eq] at he
    exact he.2
  · have hs := @List.sorted_mergeSort _ byCountDesc byCountDesc_trans
      byCountDesc_total
      ((((customersGrouped (orders.filter fun o =>
        decide (now - ((tp.getD 90 : Nat) : Int) ≤ o.created_at))).map
          Prod.snd).filter fun c => decide (1 < c.order_count)))
    exact hs.imp fun h => by simpa [byCountDesc] using h
  · intro c o hmem hcid hwin hcount e he hec
    simp only [get_repeat_customers, List.mem_mergeSort, List.mem_filter,
      decide_eq_true_eq] at he
    obtain ⟨hemem, hegt⟩ := he
    obtain ⟨p, hpmem, hpe⟩ := List.mem_map.mp hemem
    have hkey : p.1 = c := by
      rw [← customersGrouped_customer_id _ p hpmem, hpe, hec]
    have hble : e.order_count ≤ keyOrderCount c
        (customersGrouped ((orders.erase o).filter fun o' =>
          decide (now - ((tp.getD 90 : Nat) : Int) ≤ o'.created_at))) := by
      rw [← hkey, ← hpe]
      exact entry_count_le_keyOrderCount _ p hpmem
    rw [customersGrouped_keyOrderCount, List.countP_filter] at hble
    have h2 : orders.countP (fun o' => decide (o'.customer_id = c) &&
        decide (now - ((tp.getD 90 : Nat) : Int) ≤ o'.created_at)) = 2 := by
      rw [← List.countP_filter]
      exact hcount
    have h1 := countP_erase_mem
      (fun o' => decide (o'.customer_id = c) &&
        decide (now - ((tp.getD 90 : Nat) : Int) ≤ o'.created_at))
      o (by
        rw [Bool.and_eq_true, decide_eq_true_eq, decide_eq_true_eq]
        exact ⟨hcid, of_decide_eq_true hwin⟩) orders hmem
    omega

/-- C8 witness: a customer with exactly two in-window orders disappears
from the concretely computed result after one of them is erased. -/
theorem repeat_customers_spec_witness :
    (get_repeat_customers
        ([{ order_id := 1, product_id := 1, product_title := "p"
            customer_id := 1, customer_email := "e", customer_name := "n"
            quantity := 1, total_price := 10, created_at := 0 },
          { order_id := 2, product_id := 1, product_title := "p"
            customer_id := 1, customer_email := "e", customer_name := "n"
            quantity := 1, total_price := 10, created_at := -1 }].erase
          { order_id := 1, product_id := 1, product_title := "p"
            customer_id := 1, customer_email := "e", customer_name := "n"
            quantity := 1, total_price := 10, created_at := 0 }) 0 none).all
      (fun e => decide (e.customer_id ≠ 1)) = true := by
  rw [List.all_eq_true]
  intro e he
  simpa using (repeat_customers_spec
    [{ order_id := 1, product_id := 1, product_title := "p"
       customer_id := 1, customer_email := "e", customer_name := "n"
       quantity := 1, total_price := 10, created_at := 0 },
     { order_id := 2, product_id := 1, product_title := "p"
       customer_id := 1, customer_email := "e", customer_name := "n"
       quantity := 1, total_price := 10, created_at := -1 }] 0 none).2.2 1
    { order_id := 1, product_id := 1, product_title := "p"
      customer_id := 1, customer_email := "e", customer_name := "n"
      quantity := 1, total_price := 10, created_at := 0 }
    (by simp) rfl (by decide) (by decide) e he

/-- C1: the claim requires `execute` to return a response envelope whose
answer and confidence are the Answer Synthesizer's output (with row
count and completeness metadata) and not to raise, whenever
classification, planning, query generation, validation and execution
all succeed.  In the source, `AnswerFormatter.format` is `async def`,
but `workflow.py` line 68 invokes it WITHOUT `await`, so `answer_result`
is bound to the coroutine object itself and the subscript
`answer_result['answer']` raises `TypeError` on EVERY request that
reaches step 5; `execute` re-raises it instead of returning the
envelope (the repository's own tests, which assert that `execute`
returns a `QueryResponse`, fail on this input). -/
theorem workflow_execute_raises :
    ∀ (ρ : Type) (classify : String → Except Unit Intent)
      (generate : Intent → Planning → String)
      (validate : String → ValidationResult)
      (executeQuery : String → Intent → Except Unit (List ρ))
      (format_async : String → Intent → List ρ → String → PyCoroutine FormatResult)
      (question : String) (intent_result : Intent) (rows : List ρ),
      classify question = .ok intent_result →
      (validate (generate intent_result (plan_data_sources intent_result))).passed =
        true →
      executeQuery (generate intent_result (plan_data_sources intent_result))
        intent_result = .ok rows →
      workflowExecute classify generate validate executeQuery format_async question =
        .error (.typeError "coroutine object is not subscriptable") := by
  intro ρ classify generate validate executeQuery format_async question intent_result
    rows hcl hval hexec
  simp [workflowExecute, hcl, hval, hexec, Except.mapError, PyCoroutine.getitem,
    bind, Except.bind, Except.instMonad]

/-- C1 witness: a fully successful set of collaborators at a concrete
question still makes `execute` raise `TypeError`. -/
theorem workflow_execute_raises_witness :
    workflowExecute (fun _ => .ok (⟨"sales", [], none, []⟩ : Intent))
      (fun _ _ => "FROM orders SHOW total_sales") (fun _ => ⟨true, none⟩)
      (fun _ _ => .ok [()]) (fun _ _ _ _ => ⟨fun _ => ⟨"answer", .medium⟩⟩)
      "What were my top products last week" =
      .error (.typeError "coroutine object is not subscriptable") :=
  workflow_execute_raises Unit (fun _ => .ok ⟨"sales", [], none, []⟩)
    (fun _ _ => "FROM orders SHOW total_sales") (fun _ => ⟨true, none⟩)
    (fun _ _ => .ok [()]) (fun _ _ _ _ => ⟨fun _ => ⟨"answer", .medium⟩⟩)
    "What were my top products last week" ⟨"sales", [], none, []⟩ [()]
    rfl rfl rfl

end ShopAI
